import Mathlib

/-!
Verification of a Go data-access layer (package `o`): a condition-to-SQL
translator (`applyGormWhere` over the `Where` DSL), a named connection
registry (`InitDBWithMap`, `CloseAllDBs`, `buildDSN`), a transaction
finalizer (`CommitTx`), and the query facade built on them.

Modelling conventions:
  * Go `interface{}` values appearing in conditions are the inductive `Val`;
    `Val.list` is the dynamic type `[]interface{}` (the only slice type the
    translator's type assertion accepts), `Val.ptr (Val.structV fs)` is a
    pointer to a struct whose fields are settable through reflection.
  * A Go panic (out-of-range index, failed type assertion without the
    comma-ok form, nil-pointer dereference, method call on a nil receiver)
    is `Option.none` in the corresponding function's result.
  * Go errors are their message strings; a fallible call returns
    `Except String _` or `Option String` (`some msg` = non-nil error).
  * The database engine (gorm / database/sql) is an opaque capability: the
    structure `Engine` records the outcome the engine would report for each
    call, and executed engine calls are logged in a `List Action` trace.
  * Go maps are association lists with distinct keys; iteration order of a
    Go map is unspecified, the list order is one admissible order.
-/

namespace O

/-- Dynamic (`interface{}`) values that flow through the layer. -/
inductive Val where
  | str (s : String)
  | int (n : Int)
  | list (vs : List Val)
  | null
  | time (t : Nat)
  | structV (fields : List (String × Val))
  | ptr (v : Val)

/-- `type Where [][]any`: one condition group, a list of condition tuples. -/
abbrev Where := List (List Val)

/-- A gorm query builder: the connection handle it was created from, the
table set by `.Table`, and the accumulated parameterized WHERE fragments. -/
structure GormDB where
  db : Nat
  table : String
  clauses : List (String × List Val)

/-- `query.Where(sql, params...)`: append one parameterized fragment. -/
def addWhere (q : GormDB) (sql : String) (params : List Val) : GormDB :=
  { q with clauses := q.clauses ++ [(sql, params)] }

/-- `strings.ToLower`: lower-case every character (the operator tokens the
translator compares against are ASCII, where this agrees with Go). -/
def strToLower (s : String) : String := ⟨s.data.map Char.toLower⟩

/-- The comparison operators of the first `case` of the operator switch. -/
def eqOps : List String := ["=", ">", "<", ">=", "<=", "!=", "<>"]

/-- Body of the inner loop of `applyGormWhere` (gorm_builder.go:195-226):
dispatch on the length of one condition tuple.  `none` models a panic:
`arg[0]` on an empty tuple, or the unchecked type assertion
`arg[0].(string)` on a non-string first element. -/
def applyCond (q : GormDB) (arg : List Val) : Option GormDB :=
  match arg with
  | [a, v] =>
    match a with
    | .str field => some (addWhere q (field ++ " = ?") [v])
    | _ => none
  | [a, op, value] =>
    match a with
    | .str field =>
      match op with
      | .str opRaw =>
        if strToLower opRaw ∈ eqOps then
          some (addWhere q (field ++ " " ++ strToLower opRaw ++ " ?") [value])
        else if strToLower opRaw = "like" ∨ strToLower opRaw = "not like" then
          some (addWhere q (field ++ " " ++ strToLower opRaw ++ " ?") [value])
        else if strToLower opRaw = "in" ∨ strToLower opRaw = "not in" then
          some (addWhere q (field ++ " " ++ strToLower opRaw ++ " (?)") [value])
        else if strToLower opRaw = "between" ∨ strToLower opRaw = "not between" then
          match value with
          | .list [lo, hi] =>
            some (addWhere q (field ++ " " ++ strToLower opRaw ++ " ? AND ?") [lo, hi])
          | _ => some q
        else some q
      | _ => some q
    | _ => none
  | [] => none
  | a :: rest =>
    match a with
    | .str sqlStr => some (addWhere q sqlStr rest)
    | _ => none

/-- Inner loop of `applyGormWhere`: fold `applyCond` over one group,
aborting (propagating the panic) on `none`. -/
def applyWhereList (q : GormDB) : List (List Val) → Option GormDB
  | [] => some q
  | c :: rest =>
    match applyCond q c with
    | none => none
    | some q' => applyWhereList q' rest

/-- `applyGormWhere(query, args...)` (gorm_builder.go:192-230). -/
def applyGormWhere (q : GormDB) : List Where → Option GormDB
  | [] => some q
  | w :: rest =>
    match applyWhereList q w with
    | none => none
    | some q' => applyGormWhere q' rest

/-- A fixed query builder used to instantiate theorems on concrete inputs. -/
def q0 : GormDB := { db := 0, table := "t", clauses := [] }

lemma applyGormWhere_single (q : GormDB) (c : List Val) :
    applyGormWhere q [[c]] = applyCond q c := by
  cases h : applyCond q c <;> simp [applyGormWhere, applyWhereList, h]

/-- C1: for a length-3 condition whose lower-cased operator is `between` or
`not between`, a value of the form `[]interface{}{lo, hi}` yields exactly one
predicate `field <op> ? AND ?` bound to `lo, hi` in order; any other value
yields no predicate and no error. -/
theorem applyGormWhere_between_spec (q : GormDB) (f opRaw : String) (v : Val)
    (hop : strToLower opRaw = "between" ∨ strToLower opRaw = "not between") :
    (∀ lo hi, v = .list [lo, hi] →
      applyGormWhere q [[[.str f, .str opRaw, v]]] =
        some (addWhere q (f ++ " " ++ strToLower opRaw ++ " ? AND ?") [lo, hi])) ∧
    ((∀ lo hi, v ≠ .list [lo, hi]) →
      applyGormWhere q [[[.str f, .str opRaw, v]]] = some q) := by
  rw [applyGormWhere_single]
  constructor
  · rintro lo hi rfl
    rcases hop with h | h <;> simp [applyCond, h, eqOps]
  · intro hne
    rcases hop with h | h <;>
      rcases v with s | n | (_ | ⟨x, _ | ⟨y, _ | ⟨z, vs⟩⟩⟩) | _ | t | fs | p <;>
        simp [applyCond, h, eqOps] <;>
          exact absurd rfl (hne x y)

/-- C5: a condition tuple of length not in \x7b2, 3\x7d whose first element is
the string `s` is treated as a raw-SQL escape: `s` becomes the predicate text
and the remaining elements are its bound parameters, in order, with no
translator-level error. -/
theorem applyGormWhere_raw_escape (q : GormDB) (s : String) (params : List Val)
    (h2 : (Val.str s :: params).length ≠ 2) (h3 : (Val.str s :: params).length ≠ 3) :
    applyGormWhere q [[Val.str s :: params]] = some (addWhere q s params) := by
  rw [applyGormWhere_single]
  rcases params with _ | ⟨b, _ | ⟨c, _ | ⟨d, rest⟩⟩⟩
  · rfl
  · exact absurd rfl h2
  · exact absurd rfl h3
  · rfl

/-- C1 witness: concrete `BETWEEN` condition with a two-element value, and a
concrete `between` condition with a non-sequence value (silently dropped). -/
theorem applyGormWhere_between_witness :
    applyGormWhere q0 [[[Val.str "age", Val.str "BETWEEN",
        Val.list [Val.int 18, Val.int 30]]]] =
      some (addWhere q0 ("age" ++ " " ++ strToLower "BETWEEN" ++ " ? AND ?")
        [Val.int 18, Val.int 30]) ∧
    applyGormWhere q0 [[[Val.str "age", Val.str "between", Val.int 5]]] = some q0 :=
  ⟨(applyGormWhere_between_spec q0 "age" "BETWEEN" _ (Or.inl (by decide))).1 _ _ rfl,
   (applyGormWhere_between_spec q0 "age" "between" (Val.int 5)
      (Or.inl (by decide))).2 (fun _ _ h => nomatch h)⟩

/-- C5 witness: a length-1 raw literal and a length-4 raw escape. -/
theorem applyGormWhere_raw_witness :
    applyGormWhere q0 [[[Val.str "deleted = 0"]]] =
      some (addWhere q0 "deleted = 0" []) ∧
    applyGormWhere q0 [[[Val.str "a = ? AND b = ? AND c = ?",
        Val.int 1, Val.int 2, Val.int 3]]] =
      some (addWhere q0 "a = ? AND b = ? AND c = ?"
        [Val.int 1, Val.int 2, Val.int 3]) :=
  ⟨applyGormWhere_raw_escape q0 _ [] (by decide) (by decide),
   applyGormWhere_raw_escape q0 _ [Val.int 1, Val.int 2, Val.int 3]
     (by decide) (by decide)⟩

/-- A condition tuple that is non-empty and has a string first element. -/
def condOK : List Val → Bool
  | .str _ :: _ => true
  | _ => false

/-- Every tuple of every group is non-empty with a string first element. -/
def wfConds (args : List Where) : Bool := args.all fun w => w.all condOK

lemma applyCond_isSome (q : GormDB) (s : String) (rest : List Val) :
    (applyCond q (Val.str s :: rest)).isSome := by
  rcases rest with _ | ⟨b, _ | ⟨c, _ | ⟨d, r⟩⟩⟩
  · rfl
  · rfl
  · rcases b with bs | bn | bl | _ | bt | bf | bp
    case str =>
      simp only [applyCond]
      split_ifs <;> try rfl
      rcases c with cs | cn | (_ | ⟨x, _ | ⟨y, _ | ⟨z, cvs⟩⟩⟩) | _ | ct | cf | cp <;> rfl
    all_goals rfl
  · rfl

lemma applyWhereList_isSome (w : List (List Val)) : ∀ q : GormDB,
    w.all condOK = true → (applyWhereList q w).isSome := by
  induction w with
  | nil => intro q _; rfl
  | cons c rest ih =>
    intro q hw
    rw [List.all_cons, Bool.and_eq_true] at hw
    obtain ⟨hc, hrest⟩ := hw
    rcases c with _ | ⟨a, tail⟩
    · simp [condOK] at hc
    · rcases a with s | _ | _ | _ | _ | _ | _
      case str =>
        have h := applyCond_isSome q s tail
        rcases hq : applyCond q (Val.str s :: tail) with _ | q'
        · rw [hq] at h; simp at h
        · simp only [applyWhereList, hq]
          exact ih q' hrest
      all_goals simp [condOK] at hc

lemma applyGormWhere_isSome_of_wf (args : List Where) : ∀ q : GormDB,
    wfConds args = true → (applyGormWhere q args).isSome := by
  induction args with
  | nil => intro q _; rfl
  | cons w rest ih =>
    intro q hw
    rw [wfConds, List.all_cons, Bool.and_eq_true] at hw
    obtain ⟨hwl, hrest⟩ := hw
    have h := applyWhereList_isSome w q hwl
    rcases hq : applyWhereList q w with _ | q'
    · rw [hq] at h; simp at h
    · simp only [applyGormWhere, hq]
      exact ih q' hrest

/-- C9: the translator is total on condition tuples that are non-empty with a
string first element; it panics (models as `none`) on an empty tuple, on a
length-2 tuple with a non-string first element, and on a tuple of length not
in \x7b2, 3\x7d with a non-string first element. -/
theorem applyGormWhere_panic_spec (q : GormDB) :
    (∀ args, wfConds args = true → (applyGormWhere q args).isSome) ∧
    applyGormWhere q [[[]]] = none ∧
    (∀ a v, (∀ s, a ≠ Val.str s) → applyGormWhere q [[[a, v]]] = none) ∧
    (∀ a rest, (∀ s, a ≠ Val.str s) → (a :: rest).length ≠ 2 →
      (a :: rest).length ≠ 3 → applyGormWhere q [[a :: rest]] = none) := by
  refine ⟨fun args h => applyGormWhere_isSome_of_wf args q h, ?_, ?_, ?_⟩
  · rw [applyGormWhere_single]; rfl
  · intro a v h
    rw [applyGormWhere_single]
    rcases a with s | _ | _ | _ | _ | _ | _
    · exact absurd rfl (h s)
    all_goals rfl
  · intro a rest h h2 h3
    rw [applyGormWhere_single]
    rcases a with s | _ | _ | _ | _ | _ | _
    · exact absurd rfl (h s)
    all_goals rcases rest with _ | ⟨b, _ | ⟨c, _ | ⟨d, r⟩⟩⟩ <;> rfl

/-- C9 witness: a well-formed two-condition input translates without panic;
the empty tuple, a length-2 tuple with integer head, and a length-1 tuple
with integer head each panic. -/
theorem applyGormWhere_panic_witness :
    (applyGormWhere q0 [[[Val.str "a", Val.int 1],
        [Val.str "b", Val.str "in", Val.list [Val.int 1]]]]).isSome ∧
    applyGormWhere q0 [[[]]] = none ∧
    applyGormWhere q0 [[[Val.int 3, Val.int 1]]] = none ∧
    applyGormWhere q0 [[[Val.int 9]]] = none :=
  ⟨(applyGormWhere_panic_spec q0).1 _ (by decide),
   (applyGormWhere_panic_spec q0).2.1,
   (applyGormWhere_panic_spec q0).2.2.1 _ _ (fun _ h => nomatch h),
   (applyGormWhere_panic_spec q0).2.2.2 (Val.int 9) [] (fun _ h => nomatch h)
     (by decide) (by decide)⟩

/-- Engine calls the layer can issue; executed calls are logged in order. -/
inductive Action where
  | create (q : GormDB) (data : Val)
  | createInBatches (q : GormDB) (data : List Val) (batch : Nat)
  | updates (q : GormDB) (data : Val)
  | del (q : GormDB)
  | rollback (t : Nat)
  | commit (t : Nat)
  | close (s : Nat)

/-- The opaque database engine: the outcome it reports for each call.
Connection and transaction handles are `Nat`. -/
structure Engine where
  createErr : GormDB → Val → Option String
  createInBatchesErr : GormDB → List Val → Nat → Option String
  updatesErr : GormDB → Val → Option String
  deleteErr : GormDB → Option String
  openDB : String → Except String Nat
  getSqlDB : Nat → Except String Nat
  closeErr : Nat → Option String
  rollbackErr : Nat → Option String
  commitErr : Nat → Option String

/-- `error` return value: `some msg` is a non-nil Go error. -/
def goErr : Option String → Except String Unit
  | some e => .error e
  | none => .ok ()

/-- The registry `var GormDBs = make(map[string]*gorm.DB)`: an association
list from name to a possibly nil `*gorm.DB`. -/
abbrev Registry := List (String × Option Nat)

/-- Go map assignment `m[k] = v`: replace the entry for `k`, else append. -/
def mapSet {β : Type} : List (String × β) → String → β → List (String × β)
  | [], k, v => [(k, v)]
  | (k', v') :: rest, k, v =>
    if k' = k then (k, v) :: rest else (k', v') :: mapSet rest k v

lemma lookup_mapSet_self {β : Type} (m : List (String × β)) (k : String) (v : β) :
    (mapSet m k v).lookup k = some v := by
  induction m with
  | nil => simp [mapSet, List.lookup]
  | cons p rest ih =>
    obtain ⟨k', v'⟩ := p
    by_cases h : k' = k
    · simp [mapSet, h, List.lookup]
    · simp [mapSet, h, List.lookup, beq_false_of_ne (Ne.symm h), ih]

lemma lookup_mapSet_ne {β : Type} (m : List (String × β)) (k n : String) (v : β)
    (h : n ≠ k) : (mapSet m k v).lookup n = m.lookup n := by
  induction m with
  | nil => simp [mapSet, List.lookup, beq_false_of_ne h]
  | cons p rest ih =>
    obtain ⟨k', v'⟩ := p
    by_cases hk : k' = k
    · subst hk
      simp [mapSet, List.lookup, beq_false_of_ne h]
    · by_cases hn : n = k'
      · subst hn
        simp [mapSet, hk, List.lookup]
      · simp [mapSet, hk, List.lookup, beq_false_of_ne hn, ih]

/-- `const Mysql = "mysql"`, the default connection name. -/
def Mysql : String := "mysql"

/-- `GetDB(name)`: lookup by name, nil for empty name, absence, or nil entry. -/
def GetDB (reg : Registry) (name : String) : Option Nat :=
  if name = "" then none
  else
    match reg.lookup name with
    | some (some db) => some db
    | _ => none

/-- `GetDBDefault()`: the entry registered under `Mysql`, if live. -/
def GetDBDefault (reg : Registry) : Option Nat :=
  match reg.lookup Mysql with
  | some (some db) => some db
  | _ => none

/-- `Query(table, args...)`: build on the default connection; calling
`.Table` on a nil `*gorm.DB` panics (`none`), as does the translator. -/
def Query (reg : Registry) (table : String) (args : List Where) : Option GormDB :=
  match GetDBDefault reg with
  | none => none
  | some db => applyGormWhere { db := db, table := table, clauses := [] } args

/-- `QueryTx(tx, table, args...)`: returns nil (inner `none`) when `tx` is
nil, with no error; the outer `none` is a translator panic. -/
def QueryTx (tx : Option Nat) (table : String) (args : List Where) :
    Option (Option GormDB) :=
  match tx with
  | none => some none
  | some t => (applyGormWhere { db := t, table := table, clauses := [] } args).map some

/-- `setTimeFields(data, setCreateTime, setUpdateTime)` on one struct field:
a `time.Time` field named CreateTime/CreatedAt or UpdateTime/UpdatedAt is
stamped with `now`, first matching case of the switch winning. -/
def updateField (now : Nat) (setC setU : Bool) : String × Val → String × Val
  | (n, v) =>
    match v with
    | .time _ =>
      if setC ∧ (n = "CreateTime" ∨ n = "CreatedAt") then (n, .time now)
      else if setU ∧ (n = "UpdateTime" ∨ n = "UpdatedAt") then (n, .time now)
      else (n, v)
    | _ => (n, v)

/-- `setTimeFields` (gorm_builder.go:233-276): nil and non-struct data are
returned unchanged; only fields reached through a pointer are settable
(`CanSet`), so a struct passed by value is also returned unchanged.  The
function has no failing path: the error result is always nil. -/
def setTimeFields (now : Nat) (data : Val) (setC setU : Bool) : Val × Option String :=
  match data with
  | .null => (data, none)
  | .ptr (.structV fields) =>
    (.ptr (.structV (fields.map (updateField now setC setU))), none)
  | _ => (data, none)

/-- `InsertTx(tx, table, data)`. -/
def InsertTx (E : Engine) (tx : Option Nat) (table : String) (data : Val) :
    Except String Unit × List Action :=
  match tx with
  | none => (.error "transaction is nil", [])
  | some t =>
    (goErr (E.createErr { db := t, table := table, clauses := [] } data),
     [Action.create { db := t, table := table, clauses := [] } data])

/-- `InsertStructTx(tx, table, data)`: stamp time fields, then create. -/
def InsertStructTx (E : Engine) (tx : Option Nat) (now : Nat) (table : String)
    (data : Val) : Except String Unit × List Action :=
  match tx with
  | none => (.error "transaction is nil", [])
  | some t =>
    let r := setTimeFields now data true true
    match r.2 with
    | some e => (.error e, [])
    | none =>
      (goErr (E.createErr { db := t, table := table, clauses := [] } r.1),
       [Action.create { db := t, table := table, clauses := [] } r.1])

/-- `InsertBatchTx(tx, table, data)`: batch size fixed at 100. -/
def InsertBatchTx (E : Engine) (tx : Option Nat) (table : String)
    (data : List Val) : Except String Unit × List Action :=
  match tx with
  | none => (.error "transaction is nil", [])
  | some t =>
    (goErr (E.createInBatchesErr { db := t, table := table, clauses := [] } data 100),
     [Action.createInBatches { db := t, table := table, clauses := [] } data 100])

/-- `Update(table, data, args...)`: at least one condition required. -/
def Update (E : Engine) (reg : Registry) (table : String) (data : Val)
    (args : List Where) : Option (Except String Unit × List Action) :=
  if args.isEmpty then some (.error "update: invalid condition", [])
  else
    match Query reg table args with
    | none => none
    | some q => some (goErr (E.updatesErr q data), [Action.updates q data])

/-- `UpdateTx(tx, table, data, args...)`. -/
def UpdateTx (E : Engine) (tx : Option Nat) (table : String) (data : Val)
    (args : List Where) : Option (Except String Unit × List Action) :=
  match tx with
  | none => some (.error "transaction is nil", [])
  | some t =>
    if args.isEmpty then some (.error "update: invalid condition", [])
    else
      match QueryTx (some t) table args with
      | none => none
      | some none => none
      | some (some q) => some (goErr (E.updatesErr q data), [Action.updates q data])

/-- `Delete(table, args...)`: at least one condition required. -/
def Delete (E : Engine) (reg : Registry) (table : String) (args : List Where) :
    Option (Except String Unit × List Action) :=
  if args.isEmpty then some (.error "delete: invalid condition", [])
  else
    match Query reg table args with
    | none => none
    | some q => some (goErr (E.deleteErr q), [Action.del q])

/-- `DeleteTx(tx, table, args...)`: note the nil-transaction guard returns
the message "delete: invalid condition" (gorm_builder.go:171-173). -/
def DeleteTx (E : Engine) (tx : Option Nat) (table : String) (args : List Where) :
    Option (Except String Unit × List Action) :=
  match tx with
  | none => some (.error "delete: invalid condition", [])
  | some t =>
    if args.isEmpty then some (.error "delete: invalid condition", [])
    else
      match QueryTx (some t) table args with
      | none => none
      | some none => none
      | some (some q) => some (goErr (E.deleteErr q), [Action.del q])

/-- `CommitTx(tx, err)`: the transaction finalizer.  The second argument is
the caller's error pointer: outer `none` is a nil pointer, whose dereference
(performed in every branch of the Go function) panics, so the result is
`none`.  Otherwise the result is the caller's final error state plus the
trace of engine calls issued. -/
def CommitTx (E : Engine) (tx : Option Nat) (errp : Option (Option String)) :
    Option (Option String × List Action) :=
  match errp with
  | none => none
  | some err =>
    match tx with
    | none =>
      match err with
      | none => some (some "transaction is nil", [])
      | some e => some (some e, [])
    | some t =>
      match err with
      | some e =>
        match E.rollbackErr t with
        | some rb =>
          some (some ("rollback failed: " ++ rb ++ ", original error: " ++ e),
            [Action.rollback t])
        | none => some (some e, [Action.rollback t])
      | none =>
        match E.commitErr t with
        | some c => some (some ("commit failed: " ++ c), [Action.commit t])
        | none => some (none, [Action.commit t])

/-- `DBConfig`: database configuration.  Durations are integers; zero or
negative tuning values mean "leave the engine default". -/
structure DBConfig where
  host : String
  port : String
  user : String
  password : String
  dbName : String
  options : List (String × String)
  maxIdleConns : Int
  maxOpenConns : Int
  maxLifetime : Int
  maxIdleTime : Int

/-- The default DSN options of `buildDSN`. -/
def defaultOptions : List (String × String) :=
  [("charset", "utf8mb4"), ("parseTime", "True"), ("loc", "Local")]

/-- Merge caller options into `defaultOptions`, caller winning on a key
collision (`defaultOptions[k] = v` in a loop over the caller's map). -/
def mergeOptions (options : List (String × String)) : List (String × String) :=
  options.foldl (fun m p => mapSet m p.1 p.2) defaultOptions

/-- `buildDSN(host, port, user, password, dbname, options)`
(part_000:207-234). -/
def buildDSN (host port user password dbname : String)
    (options : List (String × String)) : String :=
  let dsn := user ++ ":" ++ password ++ "@tcp(" ++ host ++ ":" ++ port ++ ")/" ++ dbname
  let queryParams := (mergeOptions options).map fun p => p.1 ++ "=" ++ p.2
  if queryParams.length > 0 then dsn ++ "?" ++ String.intercalate "&" queryParams
  else dsn

/-- `InitDBWithMap(configs)` (part_000:56-93), iterating the configuration
map in list order: validate the required fields, build the DSN, open the
connection, fetch the pooled handle, tune the pool (engine-side calls with
no result), register under the name.  The returned registry reflects the
registrations performed before any failure. -/
def InitDBWithMap (E : Engine) : Registry → List (String × DBConfig) →
    Option String × Registry
  | reg, [] => (none, reg)
  | reg, (name, c) :: rest =>
    if c.host = "" ∨ c.port = "" ∨ c.user = "" ∨ c.dbName = "" then
      (some ("invalid configuration for database " ++ name ++
        ": missing required fields"), reg)
    else
      match E.openDB (buildDSN c.host c.port c.user c.password c.dbName c.options) with
      | .error e => (some ("failed to connect to " ++ name ++ " database: " ++ e), reg)
      | .ok db =>
        match E.getSqlDB db with
        | .error e =>
          (some ("failed to get underlying sql.DB for " ++ name ++ ": " ++ e), reg)
        | .ok _ => InitDBWithMap E (mapSet reg name (some db)) rest

/-- `InitGormDB(config)`: a single-entry map under the default name. -/
def InitGormDB (E : Engine) (reg : Registry) (c : DBConfig) :
    Option String × Registry :=
  InitDBWithMap E reg [(Mysql, c)]

/-- Loop body of `CloseAllDBs`: walk the registry carrying the last error
seen, logging each `sqlDB.Close()` actually issued. -/
def closeLoop (E : Engine) : List (String × Option Nat) → Option String →
    Option String × List Action
  | [], lastErr => (lastErr, [])
  | (name, odb) :: rest, lastErr =>
    match odb with
    | none => closeLoop E rest lastErr
    | some db =>
      match E.getSqlDB db with
      | .error e =>
        closeLoop E rest (some ("failed to get sql.DB for " ++ name ++ ": " ++ e))
      | .ok s =>
        let next :=
          match E.closeErr s with
          | some e =>
            closeLoop E rest (some ("failed to close " ++ name ++ " database: " ++ e))
          | none => closeLoop E rest lastErr
        (next.1, Action.close s :: next.2)

/-- `CloseAllDBs()` (part_000:145-164): close every live connection,
continue past failures, reset the registry to empty, return the last error. -/
def CloseAllDBs (E : Engine) (reg : Registry) :
    (Option String × Registry) × List Action :=
  let r := closeLoop E reg none
  ((r.1, []), r.2)

/-- The error messages `CloseAllDBs` generates, in iteration order. -/
def closeErrors (E : Engine) : List (String × Option Nat) → List String
  | [] => []
  | (name, odb) :: rest =>
    match odb with
    | none => closeErrors E rest
    | some db =>
      match E.getSqlDB db with
      | .error e =>
        ("failed to get sql.DB for " ++ name ++ ": " ++ e) :: closeErrors E rest
      | .ok s =>
        match E.closeErr s with
        | some e =>
          ("failed to close " ++ name ++ " database: " ++ e) :: closeErrors E rest
        | none => closeErrors E rest

/-- An engine whose every call succeeds; handles are passed through. -/
def E0 : Engine where
  createErr := fun _ _ => none
  createInBatchesErr := fun _ _ _ => none
  updatesErr := fun _ _ => none
  deleteErr := fun _ => none
  openDB := fun _ => .ok 1
  getSqlDB := fun n => .ok n
  closeErr := fun _ => none
  rollbackErr := fun _ => none
  commitErr := fun _ => none

/-- An engine whose rollback and commit calls fail. -/
def engTxFail : Engine :=
  { E0 with rollbackErr := fun _ => some "rbfail", commitErr := fun _ => some "cmfail" }

/-- C2: `CommitTx` semantics.  Nil transaction: a nil caller error becomes
NilTransactionError, a non-nil caller error is untouched.  Non-nil
transaction with a caller error: rollback is issued; on rollback failure the
final error embeds the rollback failure and the original error, on success
the original error is kept.  Non-nil transaction without error: commit is
issued; on commit failure the caller's error becomes the commit failure. -/
theorem commitTx_contract (E : Engine) (t : Nat) (e : String) :
    CommitTx E none (some none) = some (some "transaction is nil", []) ∧
    CommitTx E none (some (some e)) = some (some e, []) ∧
    (E.rollbackErr t = none →
      CommitTx E (some t) (some (some e)) = some (some e, [Action.rollback t])) ∧
    (∀ rb, E.rollbackErr t = some rb →
      CommitTx E (some t) (some (some e)) =
        some (some ("rollback failed: " ++ rb ++ ", original error: " ++ e),
          [Action.rollback t])) ∧
    (E.commitErr t = none →
      CommitTx E (some t) (some none) = some (none, [Action.commit t])) ∧
    (∀ c, E.commitErr t = some c →
      CommitTx E (some t) (some none) =
        some (some ("commit failed: " ++ c), [Action.commit t])) := by
  refine ⟨rfl, rfl, fun h => ?_, fun rb h => ?_, fun h => ?_, fun c h => ?_⟩ <;>
    simp [CommitTx, h]

/-- C2 witness: every branch of the contract exercised on concrete engines. -/
theorem commitTx_contract_witness :
    CommitTx E0 none (some none) = some (some "transaction is nil", []) ∧
    CommitTx E0 (some 0) (some (some "boom")) =
      some (some "boom", [Action.rollback 0]) ∧
    CommitTx engTxFail (some 0) (some (some "boom")) =
      some (some "rollback failed: rbfail, original error: boom",
        [Action.rollback 0]) ∧
    CommitTx E0 (some 0) (some none) = some (none, [Action.commit 0]) ∧
    CommitTx engTxFail (some 0) (some none) =
      some (some "commit failed: cmfail", [Action.commit 0]) :=
  ⟨(commitTx_contract E0 0 "boom").1,
   (commitTx_contract E0 0 "boom").2.2.1 rfl,
   (commitTx_contract engTxFail 0 "boom").2.2.2.1 "rbfail" rfl,
   (commitTx_contract E0 0 "boom").2.2.2.2.1 rfl,
   (commitTx_contract engTxFail 0 "boom").2.2.2.2.2 "cmfail" rfl⟩

/-- C10: `CommitTx` dereferences the caller's error pointer in every branch:
with a nil pointer it panics whatever the transaction is, and with a non-nil
pointer it never panics. -/
theorem commitTx_nil_pointer (E : Engine) (tx : Option Nat) :
    CommitTx E tx none = none ∧ ∀ e, (CommitTx E tx (some e)).isSome := by
  refine ⟨rfl, fun e => ?_⟩
  rcases tx with _ | t <;> rcases e with _ | e'
  · rfl
  · rfl
  · rcases h : E.commitErr t with _ | c <;> simp [CommitTx, h]
  · rcases h : E.rollbackErr t with _ | rb <;> simp [CommitTx, h]

/-- C4 counterexample: `DeleteTx` given a nil transaction fails with the
NoConditionError message "delete: invalid condition", not with
NilTransactionError ("transaction is nil"). -/
theorem deleteTx_nil_tx_counterexample :
    DeleteTx E0 none "users" [[[Val.str "id", Val.int 1]]] =
      some (.error "delete: invalid condition", []) ∧
    "delete: invalid condition" ≠ "transaction is nil" :=
  ⟨rfl, by decide⟩

/-- C4 amended: on a nil transaction the insert, insert-with-timestamps,
batch-insert and update variants fail with NilTransactionError
("transaction is nil"); the query variant returns a nil builder and no
error; the delete variant fails with "delete: invalid condition" (the
NoConditionError message).  None invokes the engine. -/
theorem txVariants_nil_tx (E : Engine) (now : Nat) (table : String) (data : Val)
    (batch : List Val) (args : List Where) :
    QueryTx none table args = some none ∧
    InsertTx E none table data = (.error "transaction is nil", []) ∧
    InsertStructTx E none now table data = (.error "transaction is nil", []) ∧
    InsertBatchTx E none table batch = (.error "transaction is nil", []) ∧
    UpdateTx E none table data args = some (.error "transaction is nil", []) ∧
    DeleteTx E none table args = some (.error "delete: invalid condition", []) :=
  ⟨rfl, rfl, rfl, rfl, rfl, rfl⟩

/-- C7: `Update` and `Delete` with zero conditions fail with the
NoConditionError message and issue no engine call (empty action trace). -/
theorem update_delete_no_condition (E : Engine) (reg : Registry)
    (table : String) (data : Val) :
    Update E reg table data [] = some (.error "update: invalid condition", []) ∧
    Delete E reg table [] = some (.error "delete: invalid condition", []) :=
  ⟨rfl, rfl⟩

/-- C3: configuring a single named entry.  With any of host, port, user or
database name empty the call fails with the ConfigError message and the
registry is unchanged; with all four non-empty and the engine accepting the
connection, it succeeds and registers the opened handle under exactly the
given name, leaving every other name untouched. -/
theorem initDBWithMap_configure (E : Engine) (reg : Registry) (name : String)
    (c : DBConfig) :
    ((c.host = "" ∨ c.port = "" ∨ c.user = "" ∨ c.dbName = "") →
      InitDBWithMap E reg [(name, c)] =
        (some ("invalid configuration for database " ++ name ++
          ": missing required fields"), reg)) ∧
    (∀ db s, c.host ≠ "" → c.port ≠ "" → c.user ≠ "" → c.dbName ≠ "" →
      E.openDB (buildDSN c.host c.port c.user c.password c.dbName c.options) =
        .ok db →
      E.getSqlDB db = .ok s →
      InitDBWithMap E reg [(name, c)] = (none, mapSet reg name (some db)) ∧
      (mapSet reg name (some db)).lookup name = some (some db) ∧
      ∀ n, n ≠ name → (mapSet reg name (some db)).lookup n = reg.lookup n) := by
  constructor
  · intro h
    simp only [InitDBWithMap]
    rw [if_pos h]
  · intro db s h1 h2 h3 h4 hopen hsql
    refine ⟨?_, lookup_mapSet_self reg name (some db),
      fun n hn => lookup_mapSet_ne reg name n (some db) hn⟩
    simp [InitDBWithMap, h1, h2, h3, h4, hopen, hsql]

/-- A valid configuration and one missing its host. -/
def cfgGood : DBConfig :=
  { host := "localhost", port := "3306", user := "root", password := "pw",
    dbName := "appdb", options := [], maxIdleConns := 0, maxOpenConns := 0,
    maxLifetime := 0, maxIdleTime := 0 }

/-- `cfgGood` with an empty host. -/
def cfgBad : DBConfig := { cfgGood with host := "" }

/-- C3 witness: a valid configuration registers its name; an invalid one
fails with the ConfigError message and leaves the registry as it was. -/
theorem initDBWithMap_configure_witness :
    InitDBWithMap E0 [] [("main", cfgGood)] = (none, [("main", some 1)]) ∧
    InitDBWithMap E0 [("keep", some 9)] [("bad", cfgBad)] =
      (some "invalid configuration for database bad: missing required fields",
        [("keep", some 9)]) :=
  ⟨((initDBWithMap_configure E0 [] "main" cfgGood).2 1 1
      (by decide) (by decide) (by decide) (by decide) rfl rfl).1,
   (initDBWithMap_configure E0 [("keep", some 9)] "bad" cfgBad).1 (Or.inl rfl)⟩

lemma closeLoop_fst (E : Engine) : ∀ (l : List (String × Option Nat))
    (acc : Option String),
    (closeLoop E l acc).1 = (closeErrors E l).foldl (fun _ x => some x) acc := by
  intro l
  induction l with
  | nil => intro acc; rfl
  | cons p rest ih =>
    intro acc
    obtain ⟨name, odb⟩ := p
    rcases odb with _ | db
    · simpa [closeLoop, closeErrors] using ih acc
    · rcases hg : E.getSqlDB db with e | s
      · simp [closeLoop, closeErrors, hg, ih]
      · rcases hc : E.closeErr s with _ | e <;>
          simp [closeLoop, closeErrors, hg, hc, ih]

lemma foldl_replace_getLast? : ∀ (xs : List String) (x : String),
    xs.foldl (fun _ y => some y) (some x) = (x :: xs).getLast? := by
  intro xs
  induction xs with
  | nil => intro x; rfl
  | cons y ys ih =>
    intro x
    rw [List.foldl_cons, ih y, List.getLast?_cons_cons]

lemma closeLoop_close_mem (E : Engine) : ∀ (l : List (String × Option Nat))
    (acc : Option String) (name : String) (db s : Nat),
    (name, some db) ∈ l → E.getSqlDB db = .ok s →
    Action.close s ∈ (closeLoop E l acc).2 := by
  intro l
  induction l with
  | nil => intro acc name db s h _; cases h
  | cons p rest ih =>
    intro acc name db s hmem hg
    obtain ⟨pname, podb⟩ := p
    rcases List.mem_cons.mp hmem with heq | htail
    · injection heq with h1 h2
      subst h1
      subst h2
      simp only [closeLoop, hg]
      exact List.mem_cons_self _ _
    · rcases podb with _ | db'
      · simp only [closeLoop]
        exact ih acc name db s htail hg
      · rcases hg' : E.getSqlDB db' with e | s'
        · simp only [closeLoop, hg']
          exact ih _ name db s htail hg
        · rcases hc : E.closeErr s' with _ | e <;>
            · simp only [closeLoop, hg', hc]
              exact List.mem_cons_of_mem _ (ih _ name db s htail hg)

/-- C6: `CloseAllDBs` resets the registry to empty, returns the last error
message generated while closing (none when none failed), and issues a close
for every registered live connection, continuing past failures. -/
theorem closeAllDBs_spec (E : Engine) (reg : Registry) :
    (CloseAllDBs E reg).1.2 = [] ∧
    (CloseAllDBs E reg).1.1 = (closeErrors E reg).getLast? ∧
    ∀ name db s, (name, some db) ∈ reg → E.getSqlDB db = .ok s →
      Action.close s ∈ (CloseAllDBs E reg).2 := by
  refine ⟨rfl, ?_, fun name db s hmem hg =>
    closeLoop_close_mem E reg none name db s hmem hg⟩
  show (closeLoop E reg none).1 = (closeErrors E reg).getLast?
  rw [closeLoop_fst]
  cases h : closeErrors E reg with
  | nil => rfl
  | cons x xs => rw [List.foldl_cons, foldl_replace_getLast?]

/-- An engine whose `Close` calls fail with a per-handle message. -/
def engCloseFail : Engine :=
  { E0 with closeErr := fun s => some ("e" ++ toString s) }

/-- C6 witness: three-entry registry (one nil), failing closes: the result
registry is empty, the returned error is the last failure, and the second
live connection was still closed. -/
theorem closeAllDBs_witness :
    (CloseAllDBs engCloseFail
      [("a", some 1), ("b", none), ("c", some 2)]).1.2 = [] ∧
    (CloseAllDBs engCloseFail
      [("a", some 1), ("b", none), ("c", some 2)]).1.1 =
      some "failed to close c database: e2" ∧
    Action.close 2 ∈ (CloseAllDBs engCloseFail
      [("a", some 1), ("b", none), ("c", some 2)]).2 := by
  refine ⟨(closeAllDBs_spec engCloseFail _).1, ?_, ?_⟩
  · rw [(closeAllDBs_spec engCloseFail _).2.1]; rfl
  · exact (closeAllDBs_spec engCloseFail _).2.2 "c" 2 2
      (List.mem_cons_of_mem _ (List.mem_cons_of_mem _ (List.mem_cons_self _ _))) rfl

lemma lookup_eq_none_of_not_mem {β : Type} (m : List (String × β)) (k : String)
    (h : k ∉ m.map Prod.fst) : m.lookup k = none := by
  induction m with
  | nil => rfl
  | cons p rest ih =>
    obtain ⟨k', v'⟩ := p
    simp only [List.map_cons, List.mem_cons] at h
    push_neg at h
    simp [List.lookup, beq_false_of_ne h.1, ih h.2]

lemma lookup_mergeFold (opts : List (String × String)) :
    ∀ (m : List (String × String)) (k : String),
    (opts.map Prod.fst).Nodup →
    (opts.foldl (fun acc p => mapSet acc p.1 p.2) m).lookup k =
      match opts.lookup k with
      | some v => some v
      | none => m.lookup k := by
  induction opts with
  | nil => intro m k _; rfl
  | cons p rest ih =>
    intro m k hnd
    obtain ⟨k0, v0⟩ := p
    simp only [List.map_cons, List.nodup_cons] at hnd
    obtain ⟨hk0, hnd'⟩ := hnd
    rw [List.foldl_cons, ih (mapSet m k0 v0) k hnd']
    by_cases h : k = k0
    · subst h
      rw [lookup_eq_none_of_not_mem rest k hk0]
      simp [List.lookup, lookup_mapSet_self]
    · cases hr : rest.lookup k <;>
        simp [List.lookup, beq_false_of_ne h, hr,
          lookup_mapSet_ne m k0 k v0 h]

/-- C8: the generated connection string is
`user:password@tcp(host:port)/dbname?` followed by the `k=v` pairs of
`defaultOptions` merged with the caller's options, the caller winning on a
key collision, in one admissible (unspecified) order. -/
theorem buildDSN_spec (host port user password dbname : String)
    (opts : List (String × String)) (hnd : (opts.map Prod.fst).Nodup) :
    buildDSN host port user password dbname opts =
      user ++ ":" ++ password ++ "@tcp(" ++ host ++ ":" ++ port ++ ")/" ++
        dbname ++ "?" ++ String.intercalate "&"
          ((mergeOptions opts).map fun p => p.1 ++ "=" ++ p.2) ∧
    (∀ k, (mergeOptions opts).lookup k =
      match opts.lookup k with
      | some v => some v
      | none => defaultOptions.lookup k) ∧
    (∀ k, ((mergeOptions opts).lookup k).isSome ↔
      ((opts.lookup k).isSome ∨ (defaultOptions.lookup k).isSome)) := by
  have hchar : ∀ k, (mergeOptions opts).lookup k =
      match opts.lookup k with
      | some v => some v
      | none => defaultOptions.lookup k :=
    fun k => lookup_mergeFold opts defaultOptions k hnd
  refine ⟨?_, hchar, fun k => ?_⟩
  · have hsome : ((mergeOptions opts).lookup "charset").isSome := by
      rw [hchar "charset"]
      cases h : opts.lookup "charset" <;> simp [defaultOptions, List.lookup]
    have hne : mergeOptions opts ≠ [] := by
      intro h0
      rw [h0] at hsome
      simp [List.lookup] at hsome
    simp only [buildDSN]
    rw [if_pos (by simpa [List.length_pos] using hne)]
  · rw [hchar k]
    cases h : opts.lookup k <;> simp

/-- C8 witness: one caller option overriding a default key. -/
theorem buildDSN_spec_witness :
    buildDSN "localhost" "3306" "root" "pw" "appdb" [("charset", "latin1")] =
      "root:pw@tcp(localhost:3306)/appdb?charset=latin1&parseTime=True&loc=Local" ∧
    (mergeOptions [("charset", "latin1")]).lookup "charset" = some "latin1" ∧
    (mergeOptions [("charset", "latin1")]).lookup "loc" = some "Local" := by
  have h := buildDSN_spec "localhost" "3306" "root" "pw" "appdb"
    [("charset", "latin1")] (by decide)
  refine ⟨?_, ?_, ?_⟩
  · rw [h.1]; rfl
  · rw [h.2.1 "charset"]; rfl
  · rw [h.2.1 "loc"]; rfl

end O
